import Mathlib

/-!
# Verification of the workout-session engine and exercise-prediction scorer

Shallow embedding of the core logic of the Fitness-Test-App-Expo repository:

* `src/shared/hooks/useWorkoutSession.ts` — the workout session engine
  (start / add exercise / complete set / complete / cancel / recover /
  stats, plus the autosave and duration intervals), modelled as pure
  transformers over an explicit `HookState`;
* `src/shared/hooks/usePredictNextExercise.ts` — the exercise prediction
  scorer (`predictExercises` and its helpers), modelled as pure functions.

Conventions of the embedding:

* ISO-8601 timestamp strings are modelled as `Nat` seconds; `Math.floor((now
  - start) / 1000)` over millisecond timestamps therefore becomes plain
  subtraction of second values.
* JavaScript numbers that the code stores are modelled as `Int`;
  `undefined`-able fields are `Option`s.
* A field holding a JSON string that the code decodes with `JSON.parse`
  inside `try`/`catch` (`Exercise.muscle_groups`) is modelled by the parse
  result: `none` stands for a string whose parse throws, `some gs` for a
  string parsing to the array `gs`.
* The `AsyncStorage` autosave slot is `Option (Option WorkoutSession)`:
  `none` = no bytes stored under the key, `some none` = stored bytes whose
  `JSON.parse` throws, `some (some s)` = bytes decoding to session `s`.
* Persistence calls are modelled on their success path; the hook swallows
  `AsyncStorage` failures (they only `console.error`), so the success path
  is the behaviour the claims quantify over.
-/

namespace Fitness

/-- `status` column of a `Workout` row (src/shared/types/database.ts):
`'in_progress' | 'completed' | 'cancelled'`. -/
inductive WStatus where
  | in_progress
  | completed
  | cancelled
  deriving DecidableEq, Repr

/-- Catalog `Exercise` entity (src/shared/types/database.ts), restricted to the
fields the session engine and scorer read. `muscle_groups` holds the
`JSON.parse` result of the stored JSON string (`none` = malformed JSON). -/
structure Exercise where
  id : Int
  name : String
  muscle_groups : Option (List String)
  deriving DecidableEq, Repr

/-- One set inside a session exercise (`WorkoutSet` in
src/shared/types/workout-session.ts, as built by `completeSet`). -/
structure WorkoutSet where
  setNumber : Nat
  reps : Option Int
  weight : Option Int
  duration : Option Int
  distance : Option Int
  rir : Option Int
  rpe : Option Int
  notes : Option String
  completed : Bool
  completedAt : Option Nat
  createdAt : Nat
  deriving DecidableEq, Repr

/-- One exercise inside a session (`WorkoutExerciseSession` in
src/shared/types/workout-session.ts). -/
structure WorkoutExerciseSession where
  exercise : Exercise
  orderIndex : Nat
  targetSets : Option Int
  targetReps : Option Int
  targetWeight : Option Int
  targetDuration : Option Int
  restDuration : Option Int
  notes : Option String
  sets : List WorkoutSet
  restStartTime : Option Nat
  lastSetCompletedAt : Option Nat
  createdAt : Nat
  deriving DecidableEq, Repr

/-- In-memory session state (`WorkoutSession` in
src/shared/types/workout-session.ts). -/
structure WorkoutSession where
  id : Option Int
  name : Option String
  notes : Option String
  started_at : Nat
  completed_at : Option Nat
  status : WStatus
  template_id : Option Int
  created_at : Nat
  updated_at : Nat
  exercises : List WorkoutExerciseSession
  sessionStartTime : Nat
  pausedTime : Option Int
  isPaused : Bool
  isAutoSaving : Bool
  lastSavedAt : Option Nat
  deriving DecidableEq, Repr

/-- A persisted `workouts` row as returned by `WorkoutRepository.create`
(src/shared/services/WorkoutRepository.ts). -/
structure Workout where
  id : Int
  name : Option String
  notes : Option String
  started_at : Nat
  completed_at : Option Nat
  status : WStatus
  template_id : Option Int
  created_at : Nat
  updated_at : Nat
  deriving DecidableEq, Repr

/-- `AddExerciseOptions` (src/shared/types/workout-session.ts). -/
structure AddExerciseOptions where
  targetSets : Option Int := none
  targetReps : Option Int := none
  targetWeight : Option Int := none
  targetDuration : Option Int := none
  restDuration : Option Int := none
  notes : Option String := none
  deriving DecidableEq, Repr

/-- `CompleteSetData` (src/shared/types/workout-session.ts). -/
structure CompleteSetData where
  reps : Option Int := none
  weight : Option Int := none
  duration : Option Int := none
  distance : Option Int := none
  rir : Option Int := none
  rpe : Option Int := none
  notes : Option String := none
  deriving DecidableEq, Repr

/-- `WorkoutSessionStats` (src/shared/types/workout-session.ts). -/
structure WorkoutSessionStats where
  totalDuration : Int
  totalSets : Int
  completedSets : Int
  totalReps : Int
  totalWeight : Int
  exerciseCount : Int
  averageRestTime : Int
  deriving DecidableEq, Repr

/-- JavaScript `a || b` for an optional number: `undefined` and `0` are the
falsy numeric values the code can meet here, both coalesce to `b`. -/
def jsOrNum (a : Option Int) (b : Int) : Int :=
  match a with
  | none => b
  | some v => if v = 0 then b else v

/-- JavaScript `a || b` for an optional string: `undefined` and `''` are
falsy. Used by `completeWorkout` for `notes || session.notes`. -/
def jsOrStr (a : Option String) (b : Option String) : Option String :=
  match a with
  | none => b
  | some s => if s = "" then b else some s

/-- The reactive state held by `useWorkoutSession`, together with the two
external stores it drives. `intervals` is the session value captured by the
`startIntervals` closures (`none` = intervals stopped); `storage` is the
`AsyncStorage` autosave slot; `store` is the `workouts` table reached through
`WorkoutRepository`. -/
structure HookState where
  session : Option WorkoutSession
  error : Option String
  duration : Int
  storage : Option (Option WorkoutSession)
  store : List Workout
  intervals : Option WorkoutSession
  deriving DecidableEq, Repr

/-- The hook's initial reactive state (before the mount-time recovery
effect runs). -/
def initialState : HookState :=
  { session := none, error := none, duration := 0,
    storage := none, store := [], intervals := none }

/-- `ExerciseRepository.findById` over an explicit catalog: `SELECT * FROM
exercises WHERE id = ?`. -/
def findById (catalog : List Exercise) (exerciseId : Int) : Option Exercise :=
  catalog.find? (fun e => e.id == exerciseId)

/-- `WorkoutRepository.update`: patch the row with the given id. -/
def updateWorkout (store : List Workout) (workoutId : Int)
    (patch : Workout → Workout) : List Workout :=
  store.map (fun w => if w.id == workoutId then patch w else w)

/-- `saveToStorage(sessionData)`: writes the serialized session into the
autosave slot, then bumps `lastSavedAt` on the *current* session via the
functional `setSession` update. -/
def saveToStorage (now : Nat) (sessionData : WorkoutSession)
    (st : HookState) : HookState :=
  { st with
    storage := some (some sessionData),
    session := st.session.map (fun prev => { prev with lastSavedAt := some now }) }

/-- `clearStorage()`: `AsyncStorage.removeItem(AUTOSAVE_KEY)`. -/
def clearStorage (st : HookState) : HookState :=
  { st with storage := none }

/-- `startIntervals(sessionData)`: the autosave and duration intervals
capture `sessionData` in their closures. -/
def startIntervals (sessionData : WorkoutSession) (st : HookState) : HookState :=
  { st with intervals := some sessionData }

/-- `stopIntervals()`. -/
def stopIntervals (st : HookState) : HookState :=
  { st with intervals := none }

/-- One tick of the duration interval: recomputes `duration` from absolute
timestamps of the captured session if it is `in_progress` and not paused. -/
def durationTick (now : Nat) (st : HookState) : HookState :=
  match st.intervals with
  | none => st
  | some sessionData =>
    if sessionData.status = WStatus.in_progress && !sessionData.isPaused then
      { st with duration :=
          (now : Int) - (sessionData.sessionStartTime : Int)
            - jsOrNum sessionData.pausedTime 0 }
    else st

/-- One tick of the autosave interval: snapshots the captured session if it
is `in_progress`. -/
def autosaveTick (now : Nat) (st : HookState) : HookState :=
  match st.intervals with
  | none => st
  | some sessionData =>
    if sessionData.status = WStatus.in_progress then
      saveToStorage now sessionData st
    else st

/-- `startWorkout(templateId?)`: creates a `workouts` row (auto-increment id),
builds the fresh in-memory session, starts intervals and snapshots it.
No check for an already-active session is performed. -/
def startWorkout (now : Nat) (templateId : Option Int) (st : HookState) : HookState :=
  let workout : Workout :=
    { id := Int.ofNat (st.store.length + 1), name := none, notes := none,
      started_at := now, completed_at := none, status := WStatus.in_progress,
      template_id := templateId, created_at := now, updated_at := now }
  let newSession : WorkoutSession :=
    { id := some workout.id, name := workout.name, notes := workout.notes,
      started_at := workout.started_at, completed_at := none,
      status := WStatus.in_progress, template_id := workout.template_id,
      created_at := workout.created_at, updated_at := workout.updated_at,
      exercises := [], sessionStartTime := now, pausedTime := none,
      isPaused := false, isAutoSaving := false, lastSavedAt := none }
  saveToStorage now newSession
    (startIntervals newSession
      { st with
        error := none,
        store := st.store ++ [workout],
        session := some newSession })

/-- `addExercise(exerciseId, options)`: guarded only by `!session`; looks up
the catalog exercise, appends a `WorkoutExerciseSession` with
`orderIndex = exercises.length`, `targetSets = options.targetSets || 3` and
`restDuration = options.restDuration || 60`, then snapshots. -/
def addExercise (now : Nat) (catalog : List Exercise) (exerciseId : Int)
    (options : AddExerciseOptions) (st : HookState) : HookState :=
  match st.session with
  | none => { st with error := some "No active workout session" }
  | some session =>
    match findById catalog exerciseId with
    | none => { st with error := some "Failed to add exercise: Error: Exercise not found" }
    | some exercise =>
      let newExerciseSession : WorkoutExerciseSession :=
        { exercise := exercise,
          orderIndex := session.exercises.length,
          targetSets := some (jsOrNum options.targetSets 3),
          targetReps := options.targetReps,
          targetWeight := options.targetWeight,
          targetDuration := options.targetDuration,
          restDuration := some (jsOrNum options.restDuration 60),
          notes := options.notes,
          sets := [],
          restStartTime := none, lastSetCompletedAt := none,
          createdAt := now }
      let updatedSession :=
        { session with
          exercises := session.exercises ++ [newExerciseSession],
          updated_at := now }
      saveToStorage now updatedSession { st with session := some updatedSession }

/-- `completeSet(exerciseIndex, setData)`: guarded only by
`!session || !session.exercises[exerciseIndex]`; appends a set with
`setNumber = sets.length + 1`, `completed = true`, copying `setData`
verbatim (no range validation), then snapshots. -/
def completeSet (now : Nat) (exerciseIndex : Nat) (setData : CompleteSetData)
    (st : HookState) : HookState :=
  match st.session with
  | none => { st with error := some "Invalid exercise or session" }
  | some session =>
    match session.exercises[exerciseIndex]? with
    | none => { st with error := some "Invalid exercise or session" }
    | some exercise =>
      let newSet : WorkoutSet :=
        { setNumber := exercise.sets.length + 1,
          reps := setData.reps, weight := setData.weight,
          duration := setData.duration, distance := setData.distance,
          rir := setData.rir, rpe := setData.rpe, notes := setData.notes,
          completed := true, completedAt := some now, createdAt := now }
      let updatedExercise :=
        { exercise with
          sets := exercise.sets ++ [newSet],
          lastSetCompletedAt := some now }
      let updatedSession :=
        { session with
          exercises := session.exercises.set exerciseIndex updatedExercise,
          updated_at := now }
      saveToStorage now updatedSession { st with session := some updatedSession }

/-- `completeWorkout(notes?)`: guarded only by `!session?.id`; patches the
`workouts` row to `completed`, keeps the completed session in `session`
state, stops intervals and clears the autosave slot. -/
def completeWorkout (now : Nat) (notes : Option String) (st : HookState) : HookState :=
  match st.session with
  | none => { st with error := some "No active workout to complete" }
  | some session =>
    match session.id with
    | none => { st with error := some "No active workout to complete" }
    | some sessionId =>
      let newNotes := jsOrStr notes session.notes
      let completedSession :=
        { session with
          completed_at := some now, status := WStatus.completed,
          notes := newNotes, updated_at := now }
      clearStorage
        (stopIntervals
          { st with
            store := updateWorkout st.store sessionId (fun w =>
              { w with
                completed_at := some now,
                status := WStatus.completed,
                notes := newNotes }),
            session := some completedSession })

/-- `cancelWorkout()`: guarded only by `!session?.id` (silent no-op);
patches the row to `cancelled`, stops intervals, clears the autosave slot
and drops the session. -/
def cancelWorkout (st : HookState) : HookState :=
  match st.session with
  | none => st
  | some session =>
    match session.id with
    | none => st
    | some sessionId =>
      { st with
        store := updateWorkout st.store sessionId (fun w =>
          { w with status := WStatus.cancelled }),
        intervals := none, storage := none,
        session := none, duration := 0 }

/-- `recoverWorkout()`: reads the autosave slot. No bytes, or bytes whose
`JSON.parse` throws, leave the state untouched; any decoded session is
installed as the active session, and intervals restart only when its
status is `in_progress`. -/
def recoverWorkout (st : HookState) : HookState :=
  match st.storage with
  | none => st
  | some none => st
  | some (some recoveredSession) =>
    let st := { st with session := some recoveredSession }
    if recoveredSession.status = WStatus.in_progress then
      startIntervals recoveredSession st
    else st

/-- `pauseWorkout`: `() => {}` — an unimplemented TODO stub in the hook's
returned object. -/
def pauseWorkout (st : HookState) : HookState := st

/-- `resumeWorkout`: `() => {}` — an unimplemented TODO stub in the hook's
returned object. -/
def resumeWorkout (st : HookState) : HookState := st

/-- One step of the `getStats` reducer body. -/
def statsStep (acc : WorkoutSessionStats) (exercise : WorkoutExerciseSession) :
    WorkoutSessionStats :=
  let completedSets := exercise.sets.filter (fun s => s.completed)
  { acc with
    totalSets := acc.totalSets + jsOrNum exercise.targetSets (Int.ofNat exercise.sets.length),
    completedSets := acc.completedSets + Int.ofNat completedSets.length,
    totalReps := acc.totalReps
      + completedSets.foldl (fun sum s => sum + jsOrNum s.reps 0) 0,
    totalWeight := acc.totalWeight
      + completedSets.foldl (fun sum s => sum + jsOrNum s.weight 0 * jsOrNum s.reps 0) 0,
    exerciseCount := acc.exerciseCount + 1 }

/-- The zero accumulator of `getStats` (also returned when no session). -/
def emptyStats : WorkoutSessionStats :=
  { totalDuration := 0, totalSets := 0, completedSets := 0, totalReps := 0,
    totalWeight := 0, exerciseCount := 0, averageRestTime := 0 }

/-- `getStats()`: aggregates completed sets over the session's exercises;
`totalDuration` is the `duration` state variable maintained by the
duration interval. -/
def getStats (st : HookState) : WorkoutSessionStats :=
  match st.session with
  | none => emptyStats
  | some session =>
    { session.exercises.foldl statsStep emptyStats with
      totalDuration := st.duration }

end Fitness

namespace Fitness

/-! ## Exercise prediction scorer (src/shared/hooks/usePredictNextExercise.ts)

`String.prototype.toLowerCase` / `String.prototype.includes` are modelled at
the character-list level (`Char.toLower` agrees with JavaScript on the ASCII
exercise names involved): `charsStartWith`/`charsContain` implement substring
containment. -/

/-- `pat` is a prefix of the second list. -/
def charsStartWith : List Char → List Char → Bool
  | [], _ => true
  | _ :: _, [] => false
  | p :: ps, c :: cs => p == c && charsStartWith ps cs

/-- `hay.includes(pat)` on character lists. -/
def charsContain (pat : List Char) : List Char → Bool
  | [] => charsStartWith pat []
  | c :: cs => charsStartWith pat (c :: cs) || charsContain pat cs

/-- The `compoundKeywords` list of `isCompoundMovement`. -/
def compoundKeywords : List String :=
  ["squat", "deadlift", "bench press", "pull-up", "chin-up",
   "overhead press", "row", "dip", "push-up"]

/-- `isCompoundMovement(exerciseName)`: some keyword occurs in the
lower-cased name. -/
def isCompoundMovement (exerciseName : String) : Bool :=
  compoundKeywords.any (fun keyword =>
    charsContain keyword.toList (exerciseName.toList.map Char.toLower))

/-- The `popularExercises` list of `isPopularExercise`. -/
def popularExercises : List String :=
  ["Push-up", "Pull-up", "Squat", "Bench Press", "Deadlift",
   "Overhead Press", "Barbell Row", "Dumbbell Curl", "Tricep Dip"]

/-- `isPopularExercise(exerciseName)`: exact membership in the allow-list. -/
def isPopularExercise (exerciseName : String) : Bool :=
  popularExercises.contains exerciseName

/-- The `complementaryPairs` table of `getBalanceScore`. -/
def complementaryPairs : List (String × String) :=
  [("Chest", "Back"), ("Biceps", "Triceps"),
   ("Quadriceps", "Hamstrings"), ("Shoulders", "Back")]

/-- `getBalanceScore(exerciseMuscleGroups, currentMuscleGroups)`: +5 per
complementary direction hit, then −1 per muscle group already targeted. -/
def getBalanceScore (exerciseMuscleGroups : List String)
    (currentMuscleGroups : List String) : Int :=
  let pairScore := complementaryPairs.foldl (fun score p =>
    let score :=
      if currentMuscleGroups.contains p.1 && exerciseMuscleGroups.contains p.2
      then score + 5 else score
    if currentMuscleGroups.contains p.2 && exerciseMuscleGroups.contains p.1
    then score + 5 else score) 0
  exerciseMuscleGroups.foldl (fun score mg =>
    if currentMuscleGroups.contains mg then score - 1 else score) pairScore

/-- Upper-body groups of `getWorkoutPatternScore`. -/
def upperBodyGroups : List String :=
  ["Chest", "Back", "Shoulders", "Biceps", "Triceps"]

/-- Lower-body groups of `getWorkoutPatternScore`. -/
def lowerBodyGroups : List String :=
  ["Quadriceps", "Hamstrings", "Glutes", "Calves"]

/-- `getWorkoutPatternScore(exercise, currentExercises)`: +3 when the last
session exercise and the candidate are on opposite body halves; its inner
`try`/`catch` makes a malformed muscle-group string contribute 0. -/
def getWorkoutPatternScore (exercise : Exercise)
    (currentExercises : List WorkoutExerciseSession) : Int :=
  match currentExercises.getLast? with
  | none => 0
  | some lastExercise =>
    match lastExercise.exercise.muscle_groups, exercise.muscle_groups with
    | some lastMuscleGroups, some currentMuscleGroups =>
      let lastWasUpper := lastMuscleGroups.any (fun mg => upperBodyGroups.contains mg)
      let currentIsLower := currentMuscleGroups.any (fun mg => lowerBodyGroups.contains mg)
      let lastWasLower := lastMuscleGroups.any (fun mg => lowerBodyGroups.contains mg)
      let currentIsUpper := currentMuscleGroups.any (fun mg => upperBodyGroups.contains mg)
      if (lastWasUpper && currentIsLower) || (lastWasLower && currentIsUpper)
      then 3 else 0
    | _, _ => 0

/-- The `Set` of muscle groups of the session's exercises, as collected by the
loop at the top of `predictExercises`; a malformed muscle-group string is
skipped by its `try`/`catch`. (The JavaScript `Set` is used only through
`has`, so a membership-equivalent list is a faithful model.) -/
def sessionMuscleGroups (exercises : List WorkoutExerciseSession) : List String :=
  exercises.foldl (fun acc we =>
    match we.exercise.muscle_groups with
    | none => acc
    | some gs => acc ++ gs) []

/-- The scoring body of `predictExercises` for one candidate. The whole
computation sits in a `try` whose first statement is
`JSON.parse(exercise.muscle_groups)`: a malformed string jumps to the
`catch`, which replaces everything with the constant score 1. -/
def scoreExercise (sessionExercises : List WorkoutExerciseSession)
    (currentMuscleGroups : List String) (exercise : Exercise) : Int :=
  match exercise.muscle_groups with
  | none => 1
  | some exerciseMuscleGroups =>
    let score : Int := 0
    let score :=
      if sessionExercises.length = 0 then
        if isCompoundMovement exercise.name then score + 10 else score
      else
        score + getBalanceScore exerciseMuscleGroups currentMuscleGroups
          + getWorkoutPatternScore exercise sessionExercises
    if isPopularExercise exercise.name then score + 2 else score

/-- Insert a scored candidate before the first element of not-larger score.
Together with `sortByScoreDesc` this realizes ES2019+
`Array.prototype.sort((a, b) => b.score - a.score)`: the unique reordering
that is a permutation, has non-increasing scores, and keeps equal-score
elements in their original relative order. -/
def insertDesc (x : Exercise × Int) : List (Exercise × Int) → List (Exercise × Int)
  | [] => [x]
  | y :: ys => if x.2 ≥ y.2 then x :: y :: ys else y :: insertDesc x ys

/-- Stable descending-score sort (see `insertDesc`). -/
def sortByScoreDesc : List (Exercise × Int) → List (Exercise × Int)
  | [] => []
  | x :: xs => insertDesc x (sortByScoreDesc xs)

/-- The core of `predictExercises(currentWorkout.exercises)` over an explicit
catalog (`ExerciseRepository.findAll()` result): filter out the exercises
already in the session, score the rest, stable-sort by descending score and
return the first `limit` candidates. -/
def predictExercises (currentExercises : List WorkoutExerciseSession)
    (allExercises : List Exercise) (limit : Nat) : List Exercise :=
  let exerciseIds := currentExercises.map (fun we => we.exercise.id)
  let currentMuscleGroups := sessionMuscleGroups currentExercises
  let availableExercises := allExercises.filter (fun ex => !(exerciseIds.contains ex.id))
  let scoredExercises := availableExercises.map (fun ex =>
    (ex, scoreExercise currentExercises currentMuscleGroups ex))
  ((sortByScoreDesc scoredExercises).take limit).map Prod.fst

end Fitness

namespace Fitness

/-! ## Fixtures used by concrete instantiations -/

/-- A catalog exercise used as fixture (a compound, popular movement). -/
def benchPress : Exercise :=
  { id := 1, name := "Bench Press", muscle_groups := some ["Chest", "Triceps"] }

/-- One-entry catalog fixture. -/
def fixtureCatalog : List Exercise := [benchPress]

/-- The session produced by `startWorkout 0 none initialState` (after its
`saveToStorage` bumped `lastSavedAt`). -/
def startedSessionFixture : WorkoutSession :=
  { id := some 1, name := none, notes := none, started_at := 0,
    completed_at := none, status := WStatus.in_progress, template_id := none,
    created_at := 0, updated_at := 0, exercises := [],
    sessionStartTime := 0, pausedTime := none, isPaused := false,
    isAutoSaving := false, lastSavedAt := some 0 }

/-- `startedSessionFixture` after `completeWorkout 100 none`. -/
def completedSessionFixture : WorkoutSession :=
  { startedSessionFixture with
    completed_at := some 100, status := WStatus.completed, updated_at := 100 }

/-- State reached by starting at t=0 and completing at t=100. -/
def completedState : HookState :=
  completeWorkout 100 none (startWorkout 0 none initialState)

theorem completedState_session : completedState.session = some completedSessionFixture := by
  decide

/-! ## C1 — mutating a session that is not `in_progress` -/

/-- C1 (counterexample): after `completeWorkout`, the session kept in state
has status `completed`, yet `addExercise` on it succeeds and appends an
exercise instead of failing with `InvalidStateError` and leaving the
session unchanged. -/
theorem c1_counterexample :
    completedState.session.map (fun s => s.status) = some WStatus.completed
    ∧ (addExercise 200 fixtureCatalog 1 {} completedState).session.map
        (fun s => (s.status, s.exercises.length))
      = some (WStatus.completed, 1) := by
  decide

/-- C1 (amended): `addExercise` never inspects the session status: it fails
(setting the string error `"No active workout session"`) exactly when no
session object is held, and for any held session — whatever its status,
`completed` included — with a resolvable exercise id it appends an exercise
and leaves the status unchanged. -/
theorem c1_addExercise_guarded_only_by_presence
    (now : Nat) (catalog : List Exercise) (exerciseId : Int)
    (options : AddExerciseOptions) (st : HookState) :
    (st.session = none →
      addExercise now catalog exerciseId options st
        = { st with error := some "No active workout session" })
    ∧ (∀ s ex, st.session = some s → findById catalog exerciseId = some ex →
        (addExercise now catalog exerciseId options st).session.map
          (fun s2 => (s2.status, s2.exercises.length))
          = some (s.status, s.exercises.length + 1)) := by
  constructor
  · intro h
    simp [addExercise, h]
  · intro s ex hs hex
    simp [addExercise, hs, hex, saveToStorage]

/-- C1 (witness): the amended theorem applied at concrete inputs. -/
theorem c1_witness :
    (initialState.session = none
      ∧ addExercise 5 fixtureCatalog 1 {} initialState
          = { initialState with error := some "No active workout session" })
    ∧ (addExercise 200 fixtureCatalog 1 {} completedState).session.map
        (fun s2 => (s2.status, s2.exercises.length))
      = some (WStatus.completed, 1) := by
  refine ⟨⟨rfl, (c1_addExercise_guarded_only_by_presence 5 fixtureCatalog 1 {} initialState).1 rfl⟩, ?_⟩
  have h := (c1_addExercise_guarded_only_by_presence 200 fixtureCatalog 1 {} completedState).2
    completedSessionFixture benchPress completedState_session (by decide)
  simpa using h

/-! ## C2 — starting while a session is already active -/

/-- Two successive `startWorkout` calls with no completion in between. -/
def doubleStartState : HookState :=
  startWorkout 5 none (startWorkout 0 none initialState)

/-- C2 (counterexample): starting a second workout while the first is still
`in_progress` does not fail with `ConflictError`: it succeeds (no error) and
creates a second Record Store entry. -/
theorem c2_counterexample :
    (startWorkout 0 none initialState).session.map (fun s => s.status)
      = some WStatus.in_progress
    ∧ doubleStartState.store.length = 2
    ∧ doubleStartState.error = none := by
  decide

/-- C2 (amended): `startWorkout` performs no already-active check at all:
from every state — an active session included — it creates one more Record
Store entry, installs a fresh empty `in_progress` session and clears the
error field. -/
theorem c2_startWorkout_never_conflicts (now : Nat) (templateId : Option Int)
    (st : HookState) :
    (startWorkout now templateId st).store.length = st.store.length + 1
    ∧ (startWorkout now templateId st).session.map
        (fun s => (s.status, s.exercises)) = some (WStatus.in_progress, [])
    ∧ (startWorkout now templateId st).error = none := by
  refine ⟨?_, ?_, ?_⟩ <;> simp [startWorkout, saveToStorage, startIntervals]

/-! ## C3 — recovery of a snapshot with terminal status -/

/-- A state whose autosave slot holds a snapshot with terminal status. -/
def terminalSnapshotState : HookState :=
  { initialState with storage := some (some completedSessionFixture) }

/-- C3 (counterexample): a stored snapshot whose status is `completed`
(terminal) is not discarded by `recoverWorkout`: it is installed as the
active session. -/
theorem c3_counterexample :
    completedSessionFixture.status = WStatus.completed
    ∧ (recoverWorkout terminalSnapshotState).session = some completedSessionFixture := by
  decide

/-- C3 (amended): `recoverWorkout` discards a missing or malformed snapshot
(state unchanged), but installs any decodable snapshot as the active
session regardless of its status; only the interval restart is conditional
on `in_progress`. -/
theorem c3_recover_ignores_status (st : HookState) :
    (st.storage = none → recoverWorkout st = st)
    ∧ (st.storage = some none → recoverWorkout st = st)
    ∧ (∀ s, st.storage = some (some s) →
        (recoverWorkout st).session = some s
        ∧ (recoverWorkout st).intervals
            = if s.status = WStatus.in_progress then some s else st.intervals) := by
  refine ⟨fun h => by simp [recoverWorkout, h], fun h => by simp [recoverWorkout, h], ?_⟩
  intro s h
  by_cases hst : s.status = WStatus.in_progress <;>
    simp [recoverWorkout, h, hst, startIntervals]

/-- C3 (witness): the amended theorem applied at concrete inputs. -/
theorem c3_witness :
    recoverWorkout initialState = initialState
    ∧ (recoverWorkout terminalSnapshotState).session = some completedSessionFixture :=
  ⟨(c3_recover_ignores_status initialState).1 rfl,
   ((c3_recover_ignores_status terminalSnapshotState).2.2 completedSessionFixture rfl).1⟩

end Fitness

namespace Fitness

/-! ## C4 — pausing is supposed to freeze duration accrual -/

/-- Start at t=0, duration tick at t=10. -/
def c4AfterTick10 : HookState := durationTick 10 (startWorkout 0 none initialState)

/-- Pause, wait Δt = 5 s, resume, next duration tick at t=15. -/
def c4AfterResumeTick15 : HookState :=
  durationTick 15 (resumeWorkout (pauseWorkout c4AfterTick10))

/-- C4 (code bug): `pauseWorkout`/`resumeWorkout` are unimplemented no-op
stubs, there is no `pausedAccumulatedSeconds` bookkeeping, and a pause
followed by a Δt = 5 s wait lets `getStats().totalDuration` grow from 10 to
15 — the paused time is not excluded, contradicting the documented
pause/resume support. -/
theorem c4_pause_does_not_freeze_duration :
    (∀ st : HookState, pauseWorkout st = st ∧ resumeWorkout st = st)
    ∧ (getStats c4AfterTick10).totalDuration = 10
    ∧ (getStats c4AfterResumeTick15).totalDuration = 15 := by
  refine ⟨fun st => ⟨rfl, rfl⟩, ?_, ?_⟩ <;> decide

/-! ## C5 — `completeSet` input validation -/

/-- State with one exercise added (as in the C8 scenario prefix). -/
def oneExerciseState : HookState :=
  addExercise 1 fixtureCatalog 1 {} (startWorkout 0 none initialState)

/-- Set data violating every bound of the claim: negative weight, negative
reps, `rpe` far outside [1,10]. -/
def invalidSetData : CompleteSetData :=
  { reps := some (-3), weight := some (-5), rpe := some 99 }

/-- C5 (counterexample): `completeSet` accepts `weight = -5`, `reps = -3`,
`rpe = 99` without any `ValidationError` and appends the set entry
verbatim. -/
theorem c5_counterexample :
    (completeSet 2 0 invalidSetData oneExerciseState).session.map (fun s =>
        s.exercises.map (fun e => e.sets.map (fun w => (w.reps, w.weight, w.rpe, w.completed))))
      = some [[(some (-3), some (-5), some 99, true)]] := by
  rfl

/-- C5 (amended): `completeSet` fails (setting the string error
`"Invalid exercise or session"`, appending nothing) exactly when there is no
session or `exerciseIndex` addresses no exercise; whenever the index
resolves, the set data is appended verbatim — `weight`, `reps` and `rpe`
are not validated at all. -/
theorem c5_completeSet_checks_only_index (now : Nat) (exerciseIndex : Nat)
    (setData : CompleteSetData) (st : HookState) :
    (st.session = none →
      completeSet now exerciseIndex setData st
        = { st with error := some "Invalid exercise or session" })
    ∧ (∀ s, st.session = some s → s.exercises[exerciseIndex]? = none →
        completeSet now exerciseIndex setData st
          = { st with error := some "Invalid exercise or session" })
    ∧ (∀ s ex, st.session = some s → s.exercises[exerciseIndex]? = some ex →
        (completeSet now exerciseIndex setData st).session.map (fun s2 =>
            s2.exercises[exerciseIndex]?.map (fun e2 =>
              e2.sets.map (fun w => (w.setNumber, w.reps, w.weight, w.rpe, w.completed))))
          = some (some
              ((ex.sets.map (fun w => (w.setNumber, w.reps, w.weight, w.rpe, w.completed)))
                ++ [(ex.sets.length + 1, setData.reps, setData.weight, setData.rpe, true)]))) := by
  refine ⟨fun h => by simp [completeSet, h], fun s hs h => by simp [completeSet, hs, h], ?_⟩
  intro s ex hs hex
  have hlt : exerciseIndex < s.exercises.length := (List.getElem?_eq_some.mp hex).1
  simp [completeSet, hs, hex, saveToStorage, List.getElem?_set_self, hlt]

end Fitness

namespace Fitness

/-- The session exercise appended by `addExercise 1 fixtureCatalog 1 {}`. -/
def benchSessionExercise : WorkoutExerciseSession :=
  { exercise := benchPress, orderIndex := 0, targetSets := some 3,
    targetReps := none, targetWeight := none, targetDuration := none,
    restDuration := some 60, notes := none, sets := [],
    restStartTime := none, lastSetCompletedAt := none, createdAt := 1 }

/-- The session held by `oneExerciseState`. -/
def oneExerciseSessionFixture : WorkoutSession :=
  { startedSessionFixture with
    exercises := [benchSessionExercise], updated_at := 1, lastSavedAt := some 1 }

theorem oneExerciseState_session :
    oneExerciseState.session = some oneExerciseSessionFixture := by
  decide

/-- C5 (witness): the amended theorem applied at concrete inputs. -/
theorem c5_witness :
    (completeSet 7 0 invalidSetData initialState
      = { initialState with error := some "Invalid exercise or session" })
    ∧ (completeSet 7 0 invalidSetData oneExerciseState).session.map (fun s2 =>
        s2.exercises[0]?.map (fun e2 =>
          e2.sets.map (fun w => (w.setNumber, w.reps, w.weight, w.rpe, w.completed))))
      = some (some [(1, some (-3), some (-5), some 99, true)]) := by
  constructor
  · exact (c5_completeSet_checks_only_index 7 0 invalidSetData initialState).1 rfl
  · have h := (c5_completeSet_checks_only_index 7 0 invalidSetData oneExerciseState).2.2
      oneExerciseSessionFixture benchSessionExercise oneExerciseState_session rfl
    simpa using h

/-! ## C6 — completion clears the snapshot slot -/

/-- `recoverWorkout` is the identity when the autosave slot is empty. -/
theorem recoverWorkout_of_storage_none (st : HookState) (h : st.storage = none) :
    recoverWorkout st = st := by
  simp [recoverWorkout, h]

/-- The session value `completeWorkout` keeps in state. -/
def completedOf (now : Nat) (notes : Option String) (s : WorkoutSession) :
    WorkoutSession :=
  { s with
    completed_at := some now,
    status := WStatus.completed,
    notes := jsOrStr notes s.notes,
    updated_at := now }

theorem completeWorkout_some (now : Nat) (notes : Option String) (st : HookState)
    (s : WorkoutSession) (workoutId : Int)
    (hs : st.session = some s) (hid : s.id = some workoutId) :
    completeWorkout now notes st =
      { st with
        store := updateWorkout st.store workoutId (fun w =>
          { w with
            completed_at := some now,
            status := WStatus.completed,
            notes := jsOrStr notes s.notes }),
        session := some (completedOf now notes s),
        intervals := none,
        storage := none } := by
  simp [completeWorkout, hs, hid, clearStorage, stopIntervals, completedOf]

/-- Evaluation of `cancelWorkout` when a session with a persisted id is
held. -/
theorem cancelWorkout_some (st : HookState) (s : WorkoutSession)
    (workoutId : Int) (hs : st.session = some s) (hid : s.id = some workoutId) :
    cancelWorkout st =
      { st with
        store := updateWorkout st.store workoutId (fun w =>
          { w with status := WStatus.cancelled }),
        intervals := none,
        storage := none,
        session := none,
        duration := 0 } := by
  simp [cancelWorkout, hs, hid]

/-- C6 (confirmed): for every held session with a persisted id,
`completeWorkout` — and likewise `cancelWorkout` — empties the autosave
slot; an immediately following `recoverWorkout` finds nothing (state
unchanged), and a repeated `completeWorkout` followed by `recoverWorkout`
behaves the same. -/
theorem c6_complete_then_load_returns_none (now now2 : Nat)
    (notes notes2 : Option String) (st : HookState) (s : WorkoutSession)
    (workoutId : Int) (hs : st.session = some s) (hid : s.id = some workoutId) :
    (completeWorkout now notes st).storage = none
    ∧ recoverWorkout (completeWorkout now notes st) = completeWorkout now notes st
    ∧ (completeWorkout now2 notes2 (completeWorkout now notes st)).storage = none
    ∧ recoverWorkout (completeWorkout now2 notes2 (completeWorkout now notes st))
        = completeWorkout now2 notes2 (completeWorkout now notes st)
    ∧ (cancelWorkout st).storage = none
    ∧ recoverWorkout (cancelWorkout st) = cancelWorkout st := by
  have h1 := completeWorkout_some now notes st s workoutId hs hid
  have hs2 : (completeWorkout now notes st).session
      = some (completedOf now notes s) := by
    rw [h1]
  have h2 := completeWorkout_some now2 notes2 (completeWorkout now notes st)
    (completedOf now notes s) workoutId hs2 hid
  have h3 := cancelWorkout_some st s workoutId hs hid
  refine ⟨by rw [h1], recoverWorkout_of_storage_none _ (by rw [h1]), by rw [h2],
    recoverWorkout_of_storage_none _ (by rw [h2]), by rw [h3],
    recoverWorkout_of_storage_none _ (by rw [h3])⟩

/-- C6 (witness): the theorem applied at concrete inputs, exercising both
the completion and the cancellation path. -/
theorem c6_witness :
    completedState.storage = none
    ∧ recoverWorkout completedState = completedState
    ∧ (cancelWorkout (startWorkout 0 none initialState)).storage = none
    ∧ recoverWorkout (cancelWorkout (startWorkout 0 none initialState))
        = cancelWorkout (startWorkout 0 none initialState) := by
  have h := c6_complete_then_load_returns_none 100 200 none none
    (startWorkout 0 none initialState) startedSessionFixture 1 (by decide) rfl
  exact ⟨h.1, h.2.1, h.2.2.2.2.1, h.2.2.2.2.2⟩

end Fitness

namespace Fitness

/-! ## C8 — the start / add / complete-set scenario -/

/-- Start at t=0, add the fixture exercise at t=1, complete a set with
`reps = 10`, `weight = 50` at t=2. -/
def c8FinalState : HookState :=
  completeSet 2 0 { reps := some 10, weight := some 50 } oneExerciseState

/-- C8 (confirmed): after start → addExercise → completeSet(0, reps=10,
weight=50), the single exercise holds exactly one set with `setNumber = 1`
and `completed = true`, and `getStats()` reports `totalReps = 10` and
`totalWeight = 500` (Σ weight×reps over completed sets). -/
theorem c8_scenario_stats :
    c8FinalState.session.map (fun s =>
        s.exercises.map (fun e => e.sets.map (fun w => (w.setNumber, w.completed))))
      = some [[(1, true)]]
    ∧ (getStats c8FinalState).totalReps = 10
    ∧ (getStats c8FinalState).totalWeight = 500 := by
  refine ⟨rfl, rfl, rfl⟩

/-! ## C10 — falsy coalescing of zero-valued options -/

/-- `jsOrNum` never returns 0 when its default is nonzero. -/
theorem jsOrNum_ne_zero (a : Option Int) (b : Int) (hb : b ≠ 0) :
    jsOrNum a b ≠ 0 := by
  cases a with
  | none => simpa [jsOrNum]
  | some v => by_cases hv : v = 0 <;> simp [jsOrNum, hv, hb]

/-- C10 (confirmed): `addExercise` coalesces its options on falsiness
(`options.targetSets || 3`, `options.restDuration || 60`), so a supplied 0
is silently replaced by the default — the stored exercise of a
`targetSets = 0`, `restDuration = 0` call carries `targetSets = 3` and
`restDuration = 60` — and no option value whatsoever can make the stored
`targetSets` or `restDuration` equal 0. -/
theorem c10_zero_options_coalesce_to_defaults (now : Nat) (catalog : List Exercise)
    (exerciseId : Int) (st : HookState) (s : WorkoutSession) (ex : Exercise)
    (options : AddExerciseOptions)
    (hs : st.session = some s) (hex : findById catalog exerciseId = some ex)
    (hts : options.targetSets = some 0) (hrd : options.restDuration = some 0) :
    ((addExercise now catalog exerciseId options st).session.map (fun s2 =>
        s2.exercises.getLast?.map (fun e => (e.targetSets, e.restDuration))))
      = some (some (some 3, some 60))
    ∧ ∀ options2 : AddExerciseOptions,
        ((addExercise now catalog exerciseId options2 st).session.map (fun s2 =>
          s2.exercises.getLast?.map (fun e =>
            decide (e.targetSets = some (0 : Int)) || decide (e.restDuration = some (0 : Int)))))
        = some (some false) := by
  constructor
  · simp [addExercise, hs, hex, saveToStorage, List.getLast?_concat, hts, hrd, jsOrNum]
  · intro options2
    simp [addExercise, hs, hex, saveToStorage, List.getLast?_concat,
      jsOrNum_ne_zero options2.targetSets 3 (by decide),
      jsOrNum_ne_zero options2.restDuration 60 (by decide)]

/-- Options supplying explicit zeros. -/
def zeroOptions : AddExerciseOptions := { targetSets := some 0, restDuration := some 0 }

/-- C10 (witness): the theorem applied at concrete inputs. -/
theorem c10_witness :
    ((addExercise 1 fixtureCatalog 1 zeroOptions (startWorkout 0 none initialState)).session.map
        (fun s2 => s2.exercises.getLast?.map (fun e => (e.targetSets, e.restDuration))))
      = some (some (some 3, some 60)) :=
  (c10_zero_options_coalesce_to_defaults 1 fixtureCatalog 1
    (startWorkout 0 none initialState) startedSessionFixture benchPress zeroOptions
    (by decide) (by decide) rfl rfl).1

end Fitness

namespace Fitness

/-! ## C7 — orderIndex contiguity and setNumber monotonicity -/

/-- One caller action from the C7 operation sequences. -/
inductive SessionOp where
  | addEx (now : Nat) (exerciseId : Int) (options : AddExerciseOptions)
  | doSet (now : Nat) (exerciseIndex : Nat) (setData : CompleteSetData)

/-- Apply one action through the hook's API. -/
def applyOp (catalog : List Exercise) (st : HookState) : SessionOp → HookState
  | SessionOp.addEx now exerciseId options => addExercise now catalog exerciseId options st
  | SessionOp.doSet now exerciseIndex setData => completeSet now exerciseIndex setData st

/-- Apply a sequence of actions left to right. -/
def applyOps (catalog : List Exercise) (st : HookState) : List SessionOp → HookState
  | [] => st
  | op :: ops => applyOps catalog (applyOp catalog st op) ops

/-- C7 invariant: `orderIndex` values are exactly `0..n-1` in list order, and
each exercise's `setNumber`s are exactly `1..k` in order (hence strictly
increasing and never reused). -/
def exercisesInvariant (exs : List WorkoutExerciseSession) : Prop :=
  exs.map (fun e => e.orderIndex) = List.range exs.length
  ∧ ∀ e ∈ exs, e.sets.map (fun w => w.setNumber) = List.range' 1 e.sets.length

/-- The C7 invariant, read off the held session (vacuous without one). -/
def sessionInvariant (st : HookState) : Prop :=
  ∀ s, st.session = some s → exercisesInvariant s.exercises

/-- Executable form of `exercisesInvariant`. -/
def exercisesInvariantB (exs : List WorkoutExerciseSession) : Bool :=
  (exs.map (fun e => e.orderIndex) == List.range exs.length)
  && exs.all (fun e => e.sets.map (fun w => w.setNumber) == List.range' 1 e.sets.length)

/-- Executable form of `sessionInvariant`. -/
def sessionInvariantB (st : HookState) : Bool :=
  match st.session with
  | none => true
  | some s => exercisesInvariantB s.exercises

theorem exercisesInvariant_nil : exercisesInvariant [] := by
  constructor <;> simp

/-- Writing back the element already stored at an index is a no-op. -/
theorem set_self_of_getElem {α : Type} :
    ∀ (l : List α) (i : Nat) (a : α), l[i]? = some a → l.set i a = l
  | [], _, _, h => by simp at h
  | b :: l, 0, a, h => by
      simp at h
      simp [h]
  | b :: l, i+1, a, h => by
      simp at h
      simp [set_self_of_getElem l i a h]

theorem startWorkout_invariant (now : Nat) (templateId : Option Int)
    (st : HookState) : sessionInvariant (startWorkout now templateId st) := by
  intro s2 hs2
  simp [startWorkout, saveToStorage, startIntervals] at hs2
  rw [← hs2]
  exact exercisesInvariant_nil

theorem addExercise_preserves (now : Nat) (catalog : List Exercise)
    (exerciseId : Int) (options : AddExerciseOptions) (st : HookState)
    (h : sessionInvariant st) :
    sessionInvariant (addExercise now catalog exerciseId options st) := by
  intro s2 hs2
  cases hst : st.session with
  | none => simp [addExercise, hst] at hs2
  | some s =>
    cases hex : findById catalog exerciseId with
    | none =>
      simp [addExercise, hst, hex] at hs2
      exact hs2 ▸ h s hst
    | some ex =>
      obtain ⟨hmap, hsets⟩ := h s hst
      simp [addExercise, hst, hex, saveToStorage] at hs2
      rw [← hs2]
      constructor
      · simp [hmap, List.range_succ]
      · intro e he
        rcases List.mem_append.mp he with he | he
        · exact hsets e he
        · simp at he
          subst he
          simp [List.range']

theorem completeSet_preserves (now : Nat) (exerciseIndex : Nat)
    (setData : CompleteSetData) (st : HookState) (h : sessionInvariant st) :
    sessionInvariant (completeSet now exerciseIndex setData st) := by
  intro s2 hs2
  cases hst : st.session with
  | none => simp [completeSet, hst] at hs2
  | some s =>
    cases hex : s.exercises[exerciseIndex]? with
    | none =>
      simp [completeSet, hst, hex] at hs2
      exact hs2 ▸ h s hst
    | some ex =>
      obtain ⟨hmap, hsets⟩ := h s hst
      simp [completeSet, hst, hex, saveToStorage] at hs2
      rw [← hs2]
      constructor
      · have hgo : (List.map (fun e => e.orderIndex) s.exercises)[exerciseIndex]?
            = some ex.orderIndex := by simp [hex]
        rw [hmap] at hgo
        simp only [List.map_set, List.length_set]
        rw [hmap]
        exact set_self_of_getElem _ _ _ hgo
      · intro e he
        rcases List.mem_or_eq_of_mem_set he with he | he
        · exact hsets e he
        · subst he
          have hx := hsets ex (List.getElem?_mem hex)
          dsimp only
          rw [List.map_append, hx]
          have hr : List.range' 1 (ex.sets.length + 1)
              = List.range' 1 ex.sets.length ++ [1 + 1 * ex.sets.length] :=
            List.range'_concat 1 ex.sets.length
          simp only [List.length_append, List.length_cons, List.length_nil,
            List.map_cons, List.map_nil]
          rw [hr]
          simp [Nat.add_comm]

theorem applyOp_preserves (catalog : List Exercise) (st : HookState)
    (op : SessionOp) (h : sessionInvariant st) :
    sessionInvariant (applyOp catalog st op) := by
  cases op with
  | addEx now exerciseId options => exact addExercise_preserves now catalog exerciseId options st h
  | doSet now exerciseIndex setData => exact completeSet_preserves now exerciseIndex setData st h

theorem applyOps_preserves (catalog : List Exercise) :
    ∀ (ops : List SessionOp) (st : HookState), sessionInvariant st →
      sessionInvariant (applyOps catalog st ops)
  | [], _, h => h
  | op :: ops, st, h =>
      applyOps_preserves catalog ops _ (applyOp_preserves catalog st op h)

theorem sessionInvariantB_of_sessionInvariant (st : HookState)
    (h : sessionInvariant st) : sessionInvariantB st = true := by
  cases hst : st.session with
  | none => simp [sessionInvariantB, hst]
  | some s =>
    obtain ⟨h1, h2⟩ := h s hst
    simp [sessionInvariantB, hst, exercisesInvariantB, h1, List.all_eq_true]
    intro e he
    simpa using h2 e he

/-- C7 (confirmed): for every catalog and every sequence of
`addExercise`/`completeSet` calls issued after `startWorkout` (a fresh
session), the `orderIndex` values of the held session are exactly the
contiguous range `0..n-1` in list order, and every exercise's `setNumber`s
are exactly `1, 2, 3, ...` — strictly increasing and never reused. -/
theorem c7_orderIndex_and_setNumbers_invariant (catalog : List Exercise)
    (now : Nat) (templateId : Option Int) (st0 : HookState) (ops : List SessionOp) :
    sessionInvariantB (applyOps catalog (startWorkout now templateId st0) ops) = true :=
  sessionInvariantB_of_sessionInvariant _
    (applyOps_preserves catalog ops _ (startWorkout_invariant now templateId st0))

end Fitness

namespace Fitness

/-! ## C9 — scorer exclusion, compound bonus and output order -/

theorem mem_insertDesc (x y : Exercise × Int) :
    ∀ l : List (Exercise × Int), y ∈ insertDesc x l → y = x ∨ y ∈ l
  | [], h => by simpa [insertDesc] using h
  | b :: m, h => by
      by_cases hb : x.2 ≥ b.2
      · simp only [insertDesc, if_pos hb, List.mem_cons] at h
        rcases h with h | h | h
        · exact Or.inl h
        · exact Or.inr (by simp [h])
        · exact Or.inr (by simp [h])
      · simp only [insertDesc, if_neg hb, List.mem_cons] at h
        rcases h with h | h
        · exact Or.inr (by simp [h])
        · rcases mem_insertDesc x y m h with h | h
          · exact Or.inl h
          · exact Or.inr (by simp [h])

theorem mem_sortByScoreDesc (y : Exercise × Int) :
    ∀ l : List (Exercise × Int), y ∈ sortByScoreDesc l → y ∈ l
  | [], h => by simp [sortByScoreDesc] at h
  | x :: xs, h => by
      have h2 : y ∈ insertDesc x (sortByScoreDesc xs) := by
        simpa [sortByScoreDesc] using h
      rcases mem_insertDesc x y (sortByScoreDesc xs) h2 with h3 | h3
      · simp [h3]
      · simp [mem_sortByScoreDesc y xs h3]

theorem pairwise_insertDesc (x : Exercise × Int) :
    ∀ l : List (Exercise × Int),
      List.Pairwise (fun a b : Exercise × Int => b.2 ≤ a.2) l →
      List.Pairwise (fun a b : Exercise × Int => b.2 ≤ a.2) (insertDesc x l)
  | [], _ => by simp [insertDesc]
  | b :: m, h => by
      rcases List.pairwise_cons.mp h with ⟨hb, hm⟩
      by_cases hxb : x.2 ≥ b.2
      · simp only [insertDesc, if_pos hxb]
        refine List.pairwise_cons.mpr ⟨?_, h⟩
        intro y hy
        rcases List.mem_cons.mp hy with rfl | hy
        · exact hxb
        · exact le_trans (hb y hy) hxb
      · simp only [insertDesc, if_neg hxb]
        refine List.pairwise_cons.mpr ⟨?_, pairwise_insertDesc x m hm⟩
        intro y hy
        rcases mem_insertDesc x y m hy with rfl | hy
        · exact le_of_lt (lt_of_not_ge hxb)
        · exact hb y hy

theorem pairwise_sortByScoreDesc :
    ∀ l : List (Exercise × Int),
      List.Pairwise (fun a b : Exercise × Int => b.2 ≤ a.2) (sortByScoreDesc l)
  | [] => by simp [sortByScoreDesc]
  | x :: xs => pairwise_insertDesc x (sortByScoreDesc xs) (pairwise_sortByScoreDesc xs)

theorem filter_insertDesc (c : Int) (x : Exercise × Int) :
    ∀ l : List (Exercise × Int),
      (insertDesc x l).filter (fun p => p.2 == c)
        = if x.2 == c then x :: l.filter (fun p => p.2 == c)
          else l.filter (fun p => p.2 == c)
  | [] => by
      by_cases hc : x.2 == c <;> simp [insertDesc, List.filter, hc]
  | b :: m => by
      by_cases hxb : x.2 ≥ b.2
      · simp only [insertDesc, if_pos hxb]
        by_cases hc : x.2 == c <;> simp [List.filter_cons, hc]
      · simp only [insertDesc, if_neg hxb]
        have ih := filter_insertDesc c x m
        by_cases hc : x.2 == c
        · have hxc : x.2 = c := by simpa using hc
          have hbc : ¬ (b.2 == c) := by
            have : x.2 < b.2 := lt_of_not_ge hxb
            simp only [beq_iff_eq]
            omega
          simp [List.filter_cons, hbc, ih, hc]
        · simp [List.filter_cons, ih, hc]

theorem filter_sortByScoreDesc (c : Int) :
    ∀ l : List (Exercise × Int),
      (sortByScoreDesc l).filter (fun p => p.2 == c)
        = l.filter (fun p => p.2 == c)
  | [] => by simp [sortByScoreDesc]
  | x :: xs => by
      have ih := filter_sortByScoreDesc c xs
      by_cases hc : x.2 == c <;>
        simp [sortByScoreDesc, filter_insertDesc c x (sortByScoreDesc xs), ih,
          List.filter_cons, hc]

/-- A compound-named exercise whose `muscle_groups` string is malformed. -/
def malformedSquat : Exercise :=
  { id := 1, name := "Squat", muscle_groups := none }

/-- A non-compound, non-popular exercise with malformed `muscle_groups`. -/
def malformedCurl : Exercise :=
  { id := 2, name := "Concentration Curl", muscle_groups := none }

/-- C9 (counterexample): with an empty session, a compound-named candidate
whose `muscle_groups` fails to parse falls into the `catch` score 1 and only
ties a non-compound, non-popular candidate with the same defect — it does
not receive a strictly higher score, and with the non-compound candidate
earlier in the catalog the top-1 suggestion is the non-compound one. -/
theorem c9_counterexample :
    isCompoundMovement "Squat" = true
    ∧ isCompoundMovement "Concentration Curl" = false
    ∧ isPopularExercise "Concentration Curl" = false
    ∧ scoreExercise [] (sessionMuscleGroups []) malformedSquat
        = scoreExercise [] (sessionMuscleGroups []) malformedCurl
    ∧ predictExercises [] [malformedCurl, malformedSquat] 1 = [malformedCurl] := by
  refine ⟨by decide, by decide, by decide, rfl, by decide⟩

/-- C9 (amended): (i) an exercise already in the session never appears in the
suggestion output (exclusion is by catalog id before scoring); (ii) for an
empty session, a compound-named candidate *whose muscle-group string
parses* scores strictly higher than any non-compound, non-popular
candidate (a malformed compound candidate falls to the catch-all score 1
and can tie); (iii) the output order is by descending score — the
stable sort keeps equal-score candidates in catalog order. -/
theorem c9_scorer_exclusion_and_ranking :
    (∀ (currentExercises : List WorkoutExerciseSession) (allExercises : List Exercise)
        (limit : Nat) (e : Exercise),
        e ∈ predictExercises currentExercises allExercises limit →
        ∀ we ∈ currentExercises, we.exercise.id ≠ e.id)
    ∧ (∀ (g : List String) (c d : Exercise) (mgs : List String),
        c.muscle_groups = some mgs → isCompoundMovement c.name = true →
        isCompoundMovement d.name = false → isPopularExercise d.name = false →
        scoreExercise [] g d < scoreExercise [] g c)
    ∧ (∀ l : List (Exercise × Int),
        List.Pairwise (fun a b : Exercise × Int => b.2 ≤ a.2) (sortByScoreDesc l))
    ∧ (∀ (l : List (Exercise × Int)) (c : Int),
        (sortByScoreDesc l).filter (fun p => p.2 == c)
          = l.filter (fun p => p.2 == c)) := by
  refine ⟨?_, ?_, pairwise_sortByScoreDesc, fun l c => filter_sortByScoreDesc c l⟩
  · intro currentExercises allExercises limit e he we hwe heq
    simp only [predictExercises] at he
    rcases List.mem_map.mp he with ⟨p, hp, hpe⟩
    have hp2 := List.take_subset _ _ hp
    have hp3 := mem_sortByScoreDesc p _ hp2
    rcases List.mem_map.mp hp3 with ⟨ex, hex, hexp⟩
    rcases List.mem_filter.mp hex with ⟨_, hcond⟩
    have hide : ex.id = e.id := by rw [← hpe, ← hexp]
    simp only [Bool.not_eq_eq_eq_not, Bool.not_true, List.contains_eq_any_beq,
      List.any_eq_false] at hcond
    have hmem : we.exercise.id ∈ currentExercises.map (fun w => w.exercise.id) :=
      List.mem_map.mpr ⟨we, hwe, rfl⟩
    have := hcond _ hmem
    simp only [beq_iff_eq] at this
    exact this (by rw [heq, ← hide])
  · intro g c d mgs hc hcomp hdcomp hdpop
    have hcval : scoreExercise [] g c
        = if isPopularExercise c.name then 12 else 10 := by
      simp only [scoreExercise, hc, List.length_nil, if_pos rfl, hcomp, if_true]
      by_cases hpop : isPopularExercise c.name <;> simp [hpop]
    have hdval : scoreExercise [] g d ≤ 1 := by
      cases hd : d.muscle_groups with
      | none => simp [scoreExercise, hd]
      | some mgsd => simp [scoreExercise, hd, hdcomp, hdpop]
    rw [hcval]
    by_cases hpop : isPopularExercise c.name <;> simp [hpop] <;> omega

end Fitness

namespace Fitness

/-- C9 (witness): the amended theorem applied at concrete inputs. -/
theorem c9_witness :
    (malformedCurl ∈ predictExercises [benchSessionExercise] [benchPress, malformedCurl] 3
      ∧ benchSessionExercise.exercise.id ≠ malformedCurl.id)
    ∧ scoreExercise [] [] malformedCurl < scoreExercise [] [] benchPress := by
  constructor
  · refine ⟨by decide, ?_⟩
    exact c9_scorer_exclusion_and_ranking.1 [benchSessionExercise]
      [benchPress, malformedCurl] 3 malformedCurl (by decide) benchSessionExercise
      (by decide)
  · exact c9_scorer_exclusion_and_ranking.2.1 [] benchPress malformedCurl
      ["Chest", "Triceps"] rfl (by decide) (by decide) (by decide)

end Fitness
